import Mathlib

/-!
# Verification of the 3D Ring-Fan Gallery scene controller

A shallow embedding, over `ℝ`, of the `WheelScene` controller and card
factory of this repository (canonical variant: `src/unnamed/part_000`;
the shortest-angle code of the `StoryWheel` variant is taken from
`src/unnamed/part_001`).  Machine floats are modelled as real numbers,
the three.js scene graph as an inductive tree, and raycast results as
oracle inputs to the event handlers.
-/

noncomputable section

open Classical

namespace RingFan

/-- three.js `MathUtils.degToRad`: `deg * (Math.PI / 180)`. -/
def degToRad (d : ℝ) : ℝ := d * (Real.pi / 180)

/-- JavaScript truncation toward zero, used by the `%` operator on numbers. -/
def jsTrunc (x : ℝ) : ℤ := if 0 ≤ x then ⌊x⌋ else ⌈x⌉

/-- JavaScript remainder `a % b`: `a - b * trunc(a / b)` (sign follows the dividend). -/
def jsMod (a b : ℝ) : ℝ := a - b * jsTrunc (a / b)

/-! ## Quaternions, following three.js conventions

three.js stores a quaternion as `(x, y, z, w)`; we map it to Mathlib's
`Quaternion ℝ` as `re := w`, `imI := x`, `imJ := y`, `imK := z`.  Both
three.js `Quaternion.multiply` and Mathlib's quaternion product are the
Hamilton product, so `a.multiply(b)` is `a * b`. -/

/-- A quaternion from its `w, x, y, z` components (three.js storage order is
`(x, y, z, w)`; we list `w` first to match Mathlib's `re, imI, imJ, imK`). -/
def mkQuat (w x y z : ℝ) : Quaternion ℝ := ⟨w, x, y, z⟩

@[simp] theorem mkQuat_re (w x y z : ℝ) : (mkQuat w x y z).re = w := rfl

@[simp] theorem mkQuat_imI (w x y z : ℝ) : (mkQuat w x y z).imI = x := rfl

@[simp] theorem mkQuat_imJ (w x y z : ℝ) : (mkQuat w x y z).imJ = y := rfl

@[simp] theorem mkQuat_imK (w x y z : ℝ) : (mkQuat w x y z).imK = z := rfl

/-- three.js `Quaternion.setFromEuler` for rotation order `"YXZ"` with Euler
angles `(x, y, z)`:
`x = s1*c2*c3 + c1*s2*s3`, `y = c1*s2*c3 - s1*c2*s3`,
`z = c1*c2*s3 - s1*s2*c3`, `w = c1*c2*c3 + s1*s2*s3`
where `c1 = cos(x/2), c2 = cos(y/2), c3 = cos(z/2)` and likewise `s1 s2 s3`. -/
def quatYXZ (x y z : ℝ) : Quaternion ℝ :=
  mkQuat
    (Real.cos (x / 2) * Real.cos (y / 2) * Real.cos (z / 2) +
      Real.sin (x / 2) * Real.sin (y / 2) * Real.sin (z / 2))
    (Real.sin (x / 2) * Real.cos (y / 2) * Real.cos (z / 2) +
      Real.cos (x / 2) * Real.sin (y / 2) * Real.sin (z / 2))
    (Real.cos (x / 2) * Real.sin (y / 2) * Real.cos (z / 2) -
      Real.sin (x / 2) * Real.cos (y / 2) * Real.sin (z / 2))
    (Real.cos (x / 2) * Real.cos (y / 2) * Real.sin (z / 2) -
      Real.sin (x / 2) * Real.sin (y / 2) * Real.cos (z / 2))

/-- The pure yaw quaternion: rotation by `θ` about the vertical `y` axis. -/
def rotYQuat (θ : ℝ) : Quaternion ℝ := mkQuat (Real.cos (θ / 2)) 0 (Real.sin (θ / 2)) 0

/-- The pure tilt quaternion: rotation by `θ` about the horizontal `x` axis. -/
def rotXQuat (θ : ℝ) : Quaternion ℝ := mkQuat (Real.cos (θ / 2)) (Real.sin (θ / 2)) 0 0

/-- The `"YXZ"` Euler quaternion with zero roll factors as yaw (about `y`)
followed intrinsically by tilt (about the carried `x` axis):
`Q(tilt, yaw, 0) = rotY(yaw) * rotX(tilt)`. -/
theorem quatYXZ_zero_roll (tilt yaw : ℝ) :
    quatYXZ tilt yaw 0 = rotYQuat yaw * rotXQuat tilt := by
  unfold quatYXZ rotYQuat rotXQuat
  ext <;>
    simp [Quaternion.mul_re, Quaternion.mul_imI, Quaternion.mul_imJ, Quaternion.mul_imK,
      zero_div, Real.cos_zero, Real.sin_zero] <;>
    ring

/-! ## Data model (`WheelSceneProps`, `src/unnamed/part_000` lines 38-56) -/

/-- One card's content (`type Item`): image URL, optional link, optional
open-in-new-tab flag.  `none` models a JavaScript `undefined` field. -/
structure Item where
  image : String
  link : Option String := none
  openInNewTab : Option Bool := none
deriving DecidableEq

/-- `imageFit: "cover" | "fit" | "fill"`. -/
inductive ImageFit | cover | fit | fill
deriving DecidableEq

/-- `bendingConstraint: "center" | "top" | "bottom" | "left" | "right"`. -/
inductive BendConstraint | center | top | bottom | left | right
deriving DecidableEq

/-- `autoRotateDirection: "left" | "right"`. -/
inductive RotateDirection | left | right
deriving DecidableEq

/-- `sceneTransform` record (degrees for the rotation fields). -/
structure SceneTransform where
  scale : ℝ
  positionX : ℝ
  positionY : ℝ
  positionZ : ℝ
  rotationX : ℝ
  rotationY : ℝ
  rotationZ : ℝ

/-- `cardTransform` record: per-card rotation offset in degrees. -/
structure CardTransform where
  rotationX : ℝ
  rotationY : ℝ
  rotationZ : ℝ

/-- `interaction` record. -/
structure InteractionProps where
  enableScroll : Bool
  dragSensitivity : ℝ
  flickSensitivity : ℝ
  clickSpeed : ℝ
  enableHover : Bool
  hoverScale : ℝ
  hoverOffsetY : ℝ
  hoverSlideOut : ℝ

/-- `animation` record. -/
structure AnimationProps where
  autoRotate : Bool
  autoRotateDirection : RotateDirection
  autoRotateSpeed : ℝ
  bendingIntensity : ℝ
  bendingRange : ℝ
  bendingConstraint : BendConstraint

/-- `WheelSceneProps`: the full configuration snapshot. -/
structure WheelSceneProps where
  items : List Item
  wheelRadius : ℝ
  cardWidth : ℝ
  cardHeight : ℝ
  borderRadius : ℝ
  backgroundColor : String
  imageFit : ImageFit
  sceneTransform : SceneTransform
  cardTransform : CardTransform
  interaction : InteractionProps
  animation : AnimationProps

/-! ## Rounded-rectangle shape (`createRoundedRectShape`, part_000 lines 102-115) -/

/-- One 2D path command of a three.js `Shape`. -/
inductive PathCmd where
  | moveTo (x y : ℝ)
  | lineTo (x y : ℝ)
  | quadraticCurveTo (cx cy x y : ℝ)

/-- A rounded-rect outline: the clamped corner radius actually used, and the
traced path (four straight edges joined by quarter-circle corner arcs). -/
structure RoundedRectShape where
  radius : ℝ
  cmds : List PathCmd

/-- `createRoundedRectShape(w, h, r)`: the corner radius is
`Math.min(r, w / 2, h / 2)` and the outline traces the four edges and corners
with exactly that radius. -/
def createRoundedRectShape (w h r : ℝ) : RoundedRectShape :=
  let radius := min r (min (w / 2) (h / 2))
  { radius := radius
    cmds :=
      [ PathCmd.moveTo (-w / 2 + radius) (h / 2)
      , PathCmd.lineTo (w / 2 - radius) (h / 2)
      , PathCmd.quadraticCurveTo (w / 2) (h / 2) (w / 2) (h / 2 - radius)
      , PathCmd.lineTo (w / 2) (-h / 2 + radius)
      , PathCmd.quadraticCurveTo (w / 2) (-h / 2) (w / 2 - radius) (-h / 2)
      , PathCmd.lineTo (-w / 2 + radius) (-h / 2)
      , PathCmd.quadraticCurveTo (-w / 2) (-h / 2) (-w / 2) (-h / 2 + radius)
      , PathCmd.lineTo (-w / 2) (h / 2 - radius)
      , PathCmd.quadraticCurveTo (-w / 2) (h / 2) (-w / 2 + radius) (h / 2) ] }

/-! ## Card factory (`WheelScene.createCards`, part_000 lines 311-449) -/

/-- Ring angle of card `i` of `N`: `(i / items.length) * Math.PI * 2`. -/
def cardAngle (N i : ℕ) : ℝ := ((i : ℝ) / (N : ℝ)) * Real.pi * 2

/-- A card's cached rest pose (`userData.originalPosition` /
`userData.originalQuaternion`). -/
structure CardPose where
  position : ℝ × ℝ × ℝ
  quaternion : Quaternion ℝ

/-- Rest pose of card `i` as computed in `createCards`:
position `(sin(angle) * wheelRadius, 0, cos(angle) * wheelRadius)`;
orientation `setFromEuler(Euler(tilt, angle + π/2, 0, "YXZ"))` multiplied on
the right by the per-card offset `setFromEuler(Euler(rx, ry, rz, "YXZ"))`. -/
def cardRestPose (props : WheelSceneProps) (i : ℕ) : CardPose :=
  let angle := cardAngle props.items.length i
  { position := (Real.sin angle * props.wheelRadius, 0, Real.cos angle * props.wheelRadius)
    quaternion :=
      quatYXZ (degToRad props.sceneTransform.rotationX) (angle + Real.pi / 2) 0 *
        quatYXZ (degToRad props.cardTransform.rotationX)
          (degToRad props.cardTransform.rotationY)
          (degToRad props.cardTransform.rotationZ) }

/-- One created card object.  `id` records the controller generation that
built it together with its index, so that two cards are "the same object"
exactly when their `id`s agree. -/
structure CardObj where
  id : ℕ × ℕ
  item : Item
  pose : CardPose

/-- `createCards`: one card per item, at the rest pose computed from the item
index.  An empty item list yields no cards (part_001 line 869 guards this
explicitly; part_000's `items.forEach` body simply never runs). -/
def createCards (gen : ℕ) (props : WheelSceneProps) : List CardObj :=
  props.items.enum.map fun p =>
    { id := (gen, p.1), item := p.2, pose := cardRestPose props p.1 }

/-! ## Controller construction and update (`WheelScene.init` / `WheelScene.update`,
part_000 lines 171-309) -/

/-- `idleRotationSpeed` as computed in `init`/`update`: deg/s converted to
rad/s, negated for direction `"left"`, zero when auto-rotate is off. -/
def idleSpeedOf (a : AnimationProps) : ℝ :=
  if a.autoRotate then
    (a.autoRotateSpeed * Real.pi / 180) *
      (if a.autoRotateDirection = RotateDirection.left then -1 else 1)
  else 0

/-- The controller fields relevant to the update/rebuild contract: the applied
props, the live card objects, and the animatable targets and sensitivities.
`gen` counts rebuilds, giving every created card object its identity. -/
structure Controller where
  props : WheelSceneProps
  gen : ℕ
  cards : List CardObj
  targetPosition : ℝ × ℝ × ℝ
  targetScale : ℝ
  targetRotation : ℝ × ℝ × ℝ
  targetBackgroundColor : String
  dragSensitivity : ℝ
  flickSensitivity : ℝ
  animationSpeed : ℝ
  idleRotationSpeed : ℝ

/-- `init()`: build all cards and derive the targets and sensitivities from
the props (part_000 lines 171-261; `dragSensitivity` and `flickSensitivity`
are the configured values divided by 100, lines 179-180). -/
def initController (props : WheelSceneProps) (gen : ℕ) : Controller :=
  { props := props
    gen := gen
    cards := createCards gen props
    targetPosition := (props.sceneTransform.positionX, props.sceneTransform.positionY,
      props.sceneTransform.positionZ)
    targetScale := props.sceneTransform.scale
    targetRotation := (degToRad props.sceneTransform.rotationX,
      degToRad props.sceneTransform.rotationY, degToRad props.sceneTransform.rotationZ)
    targetBackgroundColor := props.backgroundColor
    dragSensitivity := props.interaction.dragSensitivity / 100
    flickSensitivity := props.interaction.flickSensitivity / 100
    animationSpeed := props.interaction.clickSpeed
    idleRotationSpeed := idleSpeedOf props.animation }

/-- `needsRebuild` (part_000 lines 266-274): some structural field changed.
`propsAreEqual` is `JSON.stringify` equality, i.e. structural equality. -/
def NeedsRebuild (old new : WheelSceneProps) : Prop :=
  old.items ≠ new.items ∨
  old.wheelRadius ≠ new.wheelRadius ∨
  old.cardWidth ≠ new.cardWidth ∨
  old.cardHeight ≠ new.cardHeight ∨
  old.borderRadius ≠ new.borderRadius ∨
  old.imageFit ≠ new.imageFit ∨
  old.cardTransform ≠ new.cardTransform ∨
  old.animation.bendingConstraint ≠ new.animation.bendingConstraint

/-- `update(newProps)` (part_000 lines 263-309): on a structural change,
`destroy()` then `init()` with the new props (cards recreated from scratch);
otherwise only the animatable targets and sensitivities are written in place,
leaving `cards` untouched. -/
def updateController (c : Controller) (newProps : WheelSceneProps) : Controller :=
  if NeedsRebuild c.props newProps then initController newProps (c.gen + 1)
  else
    { c with
      props := newProps
      targetPosition := (newProps.sceneTransform.positionX, newProps.sceneTransform.positionY,
        newProps.sceneTransform.positionZ)
      targetScale := newProps.sceneTransform.scale
      targetRotation := (degToRad newProps.sceneTransform.rotationX,
        degToRad newProps.sceneTransform.rotationY, degToRad newProps.sceneTransform.rotationZ)
      targetBackgroundColor := newProps.backgroundColor
      dragSensitivity := newProps.interaction.dragSensitivity / 100
      flickSensitivity := newProps.interaction.flickSensitivity / 100
      animationSpeed := newProps.interaction.clickSpeed
      idleRotationSpeed := idleSpeedOf newProps.animation }

/-! ## Teardown (`WheelScene.destroy`, part_000 lines 463-492)

The scene graph is modelled as a tree of groups and meshes; `destroy`'s
disposal behaviour is the list of `dispose()` calls it issues. -/

/-- A material object: its identity and its optional texture (`mat.map`). -/
structure MaterialObj where
  matId : ℕ
  map : Option ℕ

/-- A disposable GPU-side resource. -/
inductive GpuResource where
  | renderer
  | geometry (id : ℕ)
  | material (id : ℕ)
  | texture (id : ℕ)
deriving DecidableEq

/-- A three.js scene-graph node: a mesh (with its geometry and material
array) or a group with children. -/
inductive Obj3D where
  | mesh (geomId : ℕ) (mats : List MaterialObj) : Obj3D
  | group (children : List Obj3D) : Obj3D

/-- Disposals for one material: `if (mat.map) mat.map.dispose(); mat.dispose();`
(part_000 lines 482-485). -/
def materialDisposals (m : MaterialObj) : List GpuResource :=
  (match m.map with
   | some t => [GpuResource.texture t]
   | none => []) ++ [GpuResource.material m.matId]

/-- Disposals for one direct child of `baseGroup`: only `instanceof Mesh`
children are touched (geometry, then each material); a `Group` child
contributes nothing and is NOT recursed into (part_000 lines 478-491). -/
def childDisposals : Obj3D → List GpuResource
  | Obj3D.mesh g mats => GpuResource.geometry g :: mats.flatMap materialDisposals
  | Obj3D.group _ => []

/-- All `dispose()` calls of one `destroy()` run: `renderer.dispose()`
(line 477) followed by the scan of `baseGroup.children` (lines 478-491). -/
def destroyDisposals (baseGroupChildren : List Obj3D) : List GpuResource :=
  GpuResource.renderer :: baseGroupChildren.flatMap childDisposals

/-- The card-group node built by `createCards` for card `i` (lines 405-447):
a group holding one mesh whose material array is `[frontMaterial, sideMaterial]`.
`texLoaded` tells whether the async texture load has completed (setting
`frontMaterial.map`); the side material never has a texture. -/
def cardGroupObj (i : ℕ) (texLoaded : Bool) : Obj3D :=
  Obj3D.group
    [Obj3D.mesh i
      [ { matId := 2 * i, map := if texLoaded then some i else none }
      , { matId := 2 * i + 1, map := none } ]]

/-- The children of `baseGroup` after `init` with `n` cards (all textures
loaded): only `spinGroup` (line 247), which holds the card groups. -/
def baseGroupChildrenOf (n : ℕ) : List Obj3D :=
  [Obj3D.group ((List.range n).map fun i => cardGroupObj i true)]

/-! ## Interaction state machine (part_000 lines 504-659)

The raycaster's answers (which card a pointer ray hits) are environment
inputs, passed to the handlers as oracle arguments.  Cursor styles, fade
flags and the camera are outside this state; the handlers below carry
exactly the interaction-physics fields they read and write. -/

/-- A live card as referenced by hover/immersive state: its index and item. -/
structure CardRef where
  idx : ℕ
  item : Item
deriving DecidableEq

/-- A pointer event: `isPrimary`, `clientX`, `clientY`. -/
structure PEvent where
  isPrimary : Bool
  clientX : ℝ
  clientY : ℝ

/-- A wheel event: `deltaY` and `ctrlKey`. -/
structure WEvent where
  deltaY : ℝ
  ctrlKey : Bool

/-- Navigation target of `window.open`: `"_blank"` (new tab) or `"_self"`. -/
inductive NavTarget | blank | self
deriving DecidableEq

/-- Interaction and physics state of the controller. -/
structure WheelState where
  isDragging : Bool
  dragStartX : ℝ
  dragStartY : ℝ
  lastPointerX : ℝ
  pointerVelocity : ℝ
  rotationSpeed : ℝ
  spinRotationY : ℝ
  hovered : Option CardRef
  immersive : Option CardRef
  enableHover : Bool
  dragSensitivity : ℝ
  flickSensitivity : ℝ
  friction : ℝ
  idleRotationSpeed : ℝ

/-- `clearHover` (lines 605-610): forget the hovered card. -/
def clearHover (s : WheelState) : WheelState := { s with hovered := none }

/-- `enterImmersive(group)` (lines 612-618): guard against an existing
immersive card, then focus `c`, clear hover, and zero the coasting speed. -/
def enterImmersive (s : WheelState) (c : CardRef) : WheelState :=
  if s.immersive ≠ none then s
  else { s with immersive := some c, hovered := none, rotationSpeed := 0 }

/-- `exitImmersive` (lines 620-625): drop the immersive card. -/
def exitImmersive (s : WheelState) : WheelState :=
  if s.immersive = none then s else { s with immersive := none }

/-- `onPointerDown` (lines 504-514): record the drag start; when focused,
stop there; otherwise begin a drag, resetting velocity and coasting speed. -/
def onPointerDown (s : WheelState) (e : PEvent) : WheelState :=
  if e.isPrimary = false then s
  else if s.immersive ≠ none then
    { s with dragStartX := e.clientX, dragStartY := e.clientY }
  else
    { s with
      dragStartX := e.clientX
      dragStartY := e.clientY
      isDragging := true
      lastPointerX := e.clientX
      pointerVelocity := 0
      rotationSpeed := 0 }

/-- The raycast-result branch of `updateHover` (lines 590-602): a nonempty
intersection makes its nearest card the hover target (a no-op when it
already is); an empty intersection clears the hover. -/
def applyHoverHit (s : WheelState) : Option CardRef → WheelState
  | some c => if s.hovered = some c then s else { s with hovered := some c }
  | none => clearHover s

/-- `updateHover` (lines 583-603).  `hit` is the raycast answer: the nearest
card under the pointer, if any. -/
def updateHover (s : WheelState) (hit : Option CardRef) : WheelState :=
  if s.immersive ≠ none ∨ s.isDragging = true ∨ s.enableHover = false then clearHover s
  else applyHoverHit s hit

/-- `onPointerMove` (lines 516-538): while focused, only the cursor changes;
otherwise update hover and, when dragging, rotate the ring by
`deltaX * dragSensitivity` and track the instantaneous velocity. -/
def onPointerMove (s : WheelState) (e : PEvent) (hit : Option CardRef) : WheelState :=
  if e.isPrimary = false then s
  else if s.immersive ≠ none then s
  else if (updateHover s hit).isDragging then
    { updateHover s hit with
      pointerVelocity := e.clientX - (updateHover s hit).lastPointerX
      lastPointerX := e.clientX
      spinRotationY := (updateHover s hit).spinRotationY +
        (e.clientX - (updateHover s hit).lastPointerX) * (updateHover s hit).dragSensitivity }
  else updateHover s hit

/-- The navigation requests issued by the focused-card click branch
(lines 550-553): `if (link && link !== "#") window.open(link, openInNewTab ?
"_blank" : "_self")`.  An absent or empty link is falsy; an absent or `false`
`openInNewTab` is falsy and yields `"_self"`. -/
def navEffects (it : Item) : List (String × NavTarget) :=
  match it.link with
  | none => []
  | some l =>
    if l = "" then []
    else if l = "#" then []
    else [(l, if it.openInNewTab = some true then NavTarget.blank else NavTarget.self)]

/-- `onPointerUp` (lines 540-564).  `hitFocused` is the raycast answer for
the click ray against the focused card.  Returns the new state and the list
of navigation requests made.  The drag distance is
`Math.hypot(e.clientX - dragStart.x, e.clientY - dragStart.y)` and the click
threshold is 10 px; past it, a drag release converts the tracked velocity
into coasting speed via `pointerVelocity * flickSensitivity`. -/
def onPointerUp (s : WheelState) (e : PEvent) (hitFocused : Bool) :
    WheelState × List (String × NavTarget) :=
  if e.isPrimary = false then (s, [])
  else
    if Real.sqrt ((e.clientX - s.dragStartX) ^ 2 + (e.clientY - s.dragStartY) ^ 2) < 10 then
      match s.immersive with
      | some c =>
        ({ exitImmersive s with isDragging := false },
          if hitFocused then navEffects c.item else [])
      | none =>
        match s.hovered with
        | some c => ({ enterImmersive s c with isDragging := false }, [])
        | none => ({ s with isDragging := false }, [])
    else
      if s.isDragging then
        ({ s with
            rotationSpeed := s.pointerVelocity * s.flickSensitivity
            isDragging := false }, [])
      else ({ s with isDragging := false }, [])

/-- `onPointerCancel` (lines 566-570): stop dragging, kill coasting speed. -/
def onPointerCancel (s : WheelState) : WheelState :=
  { s with isDragging := false, rotationSpeed := 0 }

/-- `onWheel` (lines 572-581): ignored while focused; with `ctrlKey` it zooms
the camera (outside this state); otherwise it accumulates
`deltaY * scrollSensitivity` (scrollSensitivity = 0.0009) into the coasting
speed. -/
def onWheel (s : WheelState) (e : WEvent) : WheelState :=
  if s.immersive ≠ none then s
  else if e.ctrlKey then s
  else { s with rotationSpeed := s.rotationSpeed + e.deltaY * 0.0009 }

/-- The wheel-rotation physics block of `animate` (lines 650-659): only when
neither dragging nor focused; while the coasting speed's magnitude exceeds
0.0001, apply it to the rotation and multiply it by the friction factor;
otherwise snap it to zero and apply the idle auto-rotation. -/
def animateRotation (s : WheelState) (delta : ℝ) : WheelState :=
  if s.isDragging = false ∧ s.immersive = none then
    if 0.0001 < |s.rotationSpeed| then
      { s with
        spinRotationY := s.spinRotationY + s.rotationSpeed,
        rotationSpeed := s.rotationSpeed * s.friction }
    else
      { s with
        rotationSpeed := 0,
        spinRotationY := s.spinRotationY + s.idleRotationSpeed * delta }
  else s

/-- The coasting-speed component of one frame step (the same update as
`animateRotation` performs on `rotationSpeed` when it runs). -/
def frictionStep (f v : ℝ) : ℝ := if 0.0001 < |v| then v * f else 0

/-- Coasting speed after `n` frames starting from `v0`. -/
def coastIter (f v0 : ℝ) : ℕ → ℝ
  | 0 => v0
  | n + 1 => frictionStep f (coastIter f v0 n)

/-- `animateRotation` updates the coasting speed exactly by `frictionStep`
whenever the physics block runs. -/
theorem animateRotation_speed (s : WheelState) (delta : ℝ)
    (h : s.isDragging = false ∧ s.immersive = none) :
    (animateRotation s delta).rotationSpeed = frictionStep s.friction s.rotationSpeed := by
  unfold animateRotation frictionStep
  rw [if_pos h]
  split <;> rfl

/-! ## Shortest-angle correction of the `StoryWheel` variant
(part_001 lines 377-384) -/

/-- `((angleDiff + Math.PI) % (Math.PI * 2)) - Math.PI`, with JavaScript's
truncated remainder. -/
def shortestAngleDiffCode (d : ℝ) : ℝ :=
  jsMod (d + Real.pi) (Real.pi * 2) - Real.pi

/-- The per-frame angular correction applied to center focused card `k` of
`N` when the current spin angle is `θ₀`:
`targetAngle = -(k / N) * Math.PI * 2`, `angleDiff = targetAngle - θ₀`,
then the "shortest" wrap above. -/
def centerCorrection (θ₀ : ℝ) (k N : ℕ) : ℝ :=
  shortestAngleDiffCode (-(((k : ℝ) / (N : ℝ)) * Real.pi * 2) - θ₀)

/-! ## C7: border-radius clamp -/

/-- C7: for every width `w > 0`, height `h > 0` and requested radius `r`
(including `r` larger than `min(w,h)/2`), the rounded-rectangle shape
generator produces corner arcs whose radius never exceeds `min(w,h)/2`;
when `r` is at least that bound, the clamp makes the radius exactly
`min(w,h)/2`. -/
theorem borderRadius_clamped (w h r : ℝ) (hw : 0 < w) (hh : 0 < h) :
    (createRoundedRectShape w h r).radius ≤ min w h / 2 ∧
    (min w h / 2 ≤ r → (createRoundedRectShape w h r).radius = min w h / 2) := by
  have hmin : min (w / 2) (h / 2) = min w h / 2 := min_div_div_right (by norm_num) w h
  constructor
  · show min r (min (w / 2) (h / 2)) ≤ min w h / 2
    rw [hmin]
    exact min_le_right _ _
  · intro hr
    show min r (min (w / 2) (h / 2)) = min w h / 2
    rw [hmin]
    exact min_eq_right hr

/-- Witness for C7 at `w = 2`, `h = 1`, `r = 5`: the used radius is
`1/2 = min(2,1)/2` even though `5` was requested. -/
theorem borderRadius_clamped_witness :
    (0 : ℝ) < 2 ∧ (0 : ℝ) < 1 ∧
    ((createRoundedRectShape (2 : ℝ) 1 5).radius ≤ min (2 : ℝ) 1 / 2 ∧
      (min (2 : ℝ) 1 / 2 ≤ 5 →
        (createRoundedRectShape (2 : ℝ) 1 5).radius = min (2 : ℝ) 1 / 2)) :=
  ⟨by norm_num, by norm_num, borderRadius_clamped 2 1 5 (by norm_num) (by norm_num)⟩

/-! ## C8: empty item list -/

/-- C8: card creation produces exactly one card per item, so an empty item
list produces zero cards; the per-card angle expression `i / N` is applied
only to the (zero) elements of the enumeration, so it is never evaluated
with `N = 0`, and the (total) controller does not crash. -/
theorem createCards_empty_safe (gen : ℕ) (props : WheelSceneProps) :
    (createCards gen props).length = props.items.length ∧
    createCards gen { props with items := [] } = [] := by
  constructor
  · simp [createCards]
  · rfl

/-! ## C3: teardown disposal accounting -/

/-- C3 is violated by the code: with one card (texture loaded), two
consecutive `destroy()` calls dispose the renderer twice and the card's
geometry, materials and texture zero times, because the disposal loop scans
only `baseGroup`'s direct children (just `spinGroup`, a `Group`) for meshes
and never reaches the card meshes nested inside the card groups. -/
theorem destroy_twice_disposals :
    (destroyDisposals (baseGroupChildrenOf 1) ++
        destroyDisposals (baseGroupChildrenOf 1)).count GpuResource.renderer = 2 ∧
    (destroyDisposals (baseGroupChildrenOf 1) ++
        destroyDisposals (baseGroupChildrenOf 1)).count (GpuResource.geometry 0) = 0 ∧
    (destroyDisposals (baseGroupChildrenOf 1) ++
        destroyDisposals (baseGroupChildrenOf 1)).count (GpuResource.material 0) = 0 ∧
    (destroyDisposals (baseGroupChildrenOf 1) ++
        destroyDisposals (baseGroupChildrenOf 1)).count (GpuResource.material 1) = 0 ∧
    (destroyDisposals (baseGroupChildrenOf 1) ++
        destroyDisposals (baseGroupChildrenOf 1)).count (GpuResource.texture 0) = 0 := by
  decide

/-! ## C1: card-factory placement -/

/-- C1: card `i` of `N` sits at angle `θᵢ = (i / N) · 2π`, at position
`(sin θᵢ · R, 0, cos θᵢ · R)`, with orientation the yaw `θᵢ + π/2` composed
(intrinsically: yaw first, then tilt, then per-card offset) with the
configured tilt and the per-card rotation offset; with 8 items the angles
are the multiples of 45°. -/
theorem cardFactory_placement (props : WheelSceneProps) (i : ℕ)
    (hN : 1 ≤ props.items.length) (hi : i < props.items.length) :
    (cardRestPose props i).position =
      (Real.sin (cardAngle props.items.length i) * props.wheelRadius, 0,
        Real.cos (cardAngle props.items.length i) * props.wheelRadius) ∧
    (cardRestPose props i).quaternion =
      rotYQuat (cardAngle props.items.length i + Real.pi / 2) *
        rotXQuat (degToRad props.sceneTransform.rotationX) *
        quatYXZ (degToRad props.cardTransform.rotationX)
          (degToRad props.cardTransform.rotationY)
          (degToRad props.cardTransform.rotationZ) ∧
    cardAngle props.items.length i = (i : ℝ) * (2 * Real.pi) / props.items.length ∧
    (props.items.length = 8 → cardAngle props.items.length i = (i : ℝ) * (Real.pi / 4)) := by
  refine ⟨rfl, ?_, by unfold cardAngle; ring, ?_⟩
  · show quatYXZ (degToRad props.sceneTransform.rotationX)
        (cardAngle props.items.length i + Real.pi / 2) 0 *
        quatYXZ (degToRad props.cardTransform.rotationX)
          (degToRad props.cardTransform.rotationY)
          (degToRad props.cardTransform.rotationZ) = _
    rw [quatYXZ_zero_roll]
  · intro h8
    rw [h8]
    unfold cardAngle
    push_cast
    ring

/-- A sample configuration with 8 items at ring radius 3.5, for C1. -/
def cfg8 : WheelSceneProps :=
  { items := List.replicate 8 { image := "img" }
    wheelRadius := 3.5
    cardWidth := 1.2
    cardHeight := 1.8
    borderRadius := 0.1
    backgroundColor := "transparent"
    imageFit := ImageFit.cover
    sceneTransform := ⟨1, 0, 0, 0, 10, 0, 0⟩
    cardTransform := ⟨0, 0, 0⟩
    interaction := ⟨true, 1.5, 1, 0.1, true, 1.1, 0.2, 0.3⟩
    animation := ⟨false, RotateDirection.right, 20, 0.1, 0.2, BendConstraint.center⟩ }

/-- Witness for C1: with 8 items at radius 3.5, card 2's ring angle is
`2 · 45° = 90°`. -/
theorem cardFactory_placement_witness :
    1 ≤ cfg8.items.length ∧ 2 < cfg8.items.length ∧
    cardAngle cfg8.items.length 2 = (2 : ℝ) * (Real.pi / 4) :=
  ⟨by simp [cfg8], by simp [cfg8],
    (cardFactory_placement cfg8 2 (by simp [cfg8]) (by simp [cfg8])).2.2.2 (by simp [cfg8])⟩

/-! ## C5: shortest-path centering correction -/

/-- For `-b < a ≤ 0 < b` the JavaScript remainder leaves `a` unchanged
(the truncated quotient is zero). -/
theorem jsMod_self_of_neg (a b : ℝ) (hb : 0 < b) (h1 : -b < a) (h2 : a ≤ 0) :
    jsMod a b = a := by
  rcases eq_or_lt_of_le h2 with h0 | hneg
  · rw [h0]
    simp [jsMod, jsTrunc]
  · have hq : a / b < 0 := div_neg_of_neg_of_pos hneg hb
    unfold jsMod jsTrunc
    rw [if_neg (not_le.2 hq)]
    have hceil : ⌈a / b⌉ = 0 := by
      rw [Int.ceil_eq_zero_iff, Set.mem_Ioc]
      refine ⟨?_, hq.le⟩
      rw [lt_div_iff₀ hb]
      linarith
    rw [hceil]
    simp

/-- C5 is violated by the code: with the ring's current spin angle at
`3π/2` and card 0 of 8 focused (target angle `0`), the computed "shortest"
correction is `-3π/2`, whose magnitude exceeds `π` — JavaScript's truncated
`%` makes `((d + π) % 2π) - π` return `d` itself for `d ∈ (-2π, -π)`, so the
ring is rotated the long way around. -/
theorem focus_correction_long_way :
    centerCorrection (3 * Real.pi / 2) 0 8 = -(3 * Real.pi / 2) ∧
    Real.pi < |centerCorrection (3 * Real.pi / 2) 0 8| := by
  have hπ := Real.pi_pos
  have hmain : centerCorrection (3 * Real.pi / 2) 0 8 = -(3 * Real.pi / 2) := by
    unfold centerCorrection shortestAngleDiffCode
    rw [show -((((0 : ℕ) : ℝ) / ((8 : ℕ) : ℝ)) * Real.pi * 2) - 3 * Real.pi / 2 + Real.pi =
        -(Real.pi / 2) from by push_cast; ring]
    rw [jsMod_self_of_neg (-(Real.pi / 2)) (Real.pi * 2) (by linarith) (by linarith)
      (by linarith)]
    ring
  refine ⟨hmain, ?_⟩
  rw [hmain, abs_of_nonpos (by linarith)]
  linarith

/-! ## C6: friction decay convergence -/

/-- Zero coasting speed is absorbing: once snapped to zero it stays zero. -/
theorem coastIter_zero_succ (f v0 : ℝ) (n : ℕ) (h : coastIter f v0 n = 0) :
    coastIter f v0 (n + 1) = 0 := by
  simp only [coastIter, h]
  norm_num [frictionStep]

/-- Until it snaps to zero, the coasting speed is geometrically bounded:
after `n` frames it is zero or at most `|v0| · fⁿ` in magnitude. -/
theorem coastIter_bound (f v0 : ℝ) (hf : 0 ≤ f) (n : ℕ) :
    coastIter f v0 n = 0 ∨ |coastIter f v0 n| ≤ |v0| * f ^ n := by
  induction n with
  | zero => right; simp [coastIter]
  | succ n ih =>
    rcases ih with h | h
    · exact Or.inl (coastIter_zero_succ f v0 n h)
    · by_cases hc : (0.0001 : ℝ) < |coastIter f v0 n|
      · right
        simp only [coastIter]
        unfold frictionStep
        rw [if_pos hc, abs_mul, abs_of_nonneg hf, pow_succ, ← mul_assoc]
        exact mul_le_mul_of_nonneg_right h hf
      · left
        simp only [coastIter]
        unfold frictionStep
        rw [if_neg hc]

/-- C6: from any nonzero initial coasting speed `v0` and friction factor
`f ∈ (0,1)`, the per-frame step (multiply by `f` while the magnitude exceeds
0.0001, then snap to zero) drives the speed below the epsilon and to exactly
zero within a bounded number of frames: any `n` beyond
`log(0.0001/|v0|) / log f` suffices, and zero is absorbing. -/
theorem friction_decay (v0 f : ℝ) (hv : v0 ≠ 0) (hf0 : 0 < f) (hf1 : f < 1) :
    (∀ n : ℕ, Real.log (0.0001 / |v0|) / Real.log f < (n : ℝ) →
        |coastIter f v0 n| < 0.0001 ∧ coastIter f v0 (n + 1) = 0) ∧
    (∃ n : ℕ, coastIter f v0 n = 0) ∧
    (∀ n : ℕ, coastIter f v0 n = 0 → coastIter f v0 (n + 1) = 0) := by
  have habs : 0 < |v0| := abs_pos.2 hv
  have hlogf : Real.log f < 0 := Real.log_neg hf0 hf1
  have key : ∀ n : ℕ, Real.log (0.0001 / |v0|) / Real.log f < (n : ℝ) →
      |coastIter f v0 n| < 0.0001 ∧ coastIter f v0 (n + 1) = 0 := by
    intro n hn
    have h1 : (n : ℝ) * Real.log f < Real.log (0.0001 / |v0|) :=
      (div_lt_iff_of_neg hlogf).1 hn
    have h2 : Real.log (f ^ n) < Real.log (0.0001 / |v0|) := by
      rw [Real.log_pow]; exact h1
    have h3 : f ^ n < 0.0001 / |v0| :=
      (Real.log_lt_log_iff (pow_pos hf0 n) (by positivity)).1 h2
    have h4 : |v0| * f ^ n < 0.0001 := by
      rw [mul_comm]
      exact (lt_div_iff₀ habs).1 h3
    have h5 : |coastIter f v0 n| < 0.0001 := by
      rcases coastIter_bound f v0 hf0.le n with h | h
      · rw [h, abs_zero]; norm_num
      · exact lt_of_le_of_lt h h4
    refine ⟨h5, ?_⟩
    simp only [coastIter]
    unfold frictionStep
    rw [if_neg (not_lt.2 h5.le)]
  refine ⟨key, ?_, fun n h => coastIter_zero_succ f v0 n h⟩
  obtain ⟨n, hn⟩ := exists_nat_gt (Real.log (0.0001 / |v0|) / Real.log f)
  exact ⟨n + 1, (key n hn).2⟩

/-- Witness for C6 at `v0 = 1`, `f = 9/10` (the code's friction 0.90). -/
theorem friction_decay_witness :
    (1 : ℝ) ≠ 0 ∧ (0 : ℝ) < 9 / 10 ∧ (9 / 10 : ℝ) < 1 ∧
    ((∀ n : ℕ, Real.log (0.0001 / |(1 : ℝ)|) / Real.log (9 / 10) < (n : ℝ) →
        |coastIter (9 / 10) 1 n| < 0.0001 ∧ coastIter (9 / 10) 1 (n + 1) = 0) ∧
      (∃ n : ℕ, coastIter (9 / 10) 1 n = 0) ∧
      (∀ n : ℕ, coastIter (9 / 10) 1 n = 0 → coastIter (9 / 10) 1 (n + 1) = 0)) :=
  ⟨by norm_num, by norm_num, by norm_num,
    friction_decay 1 (9 / 10) (by norm_num) (by norm_num) (by norm_num)⟩

/-! ## C2: link activation on a focused card -/

/-- A primary pointer-up within the click threshold while a card is focused
exits the focused state and issues exactly the navigation requests of the
focused card's item (none when the click ray misses it). -/
theorem onPointerUp_click_focused (s : WheelState) (e : PEvent) (c : CardRef)
    (hitFocused : Bool) (hp : e.isPrimary = true) (himm : s.immersive = some c)
    (hdist : Real.sqrt ((e.clientX - s.dragStartX) ^ 2 + (e.clientY - s.dragStartY) ^ 2) < 10) :
    onPointerUp s e hitFocused =
      ({ exitImmersive s with isDragging := false },
        if hitFocused then navEffects c.item else []) := by
  unfold onPointerUp
  rw [hp]
  simp only [Bool.true_eq_false, if_false]
  rw [if_pos hdist, himm]

/-- Counterexample for C2: a focused card whose item has the real URL
`"https://example.com"` and `openInNewTab` unspecified navigates in the SAME
tab (`"_self"`), not a new one — `openInNewTab ? "_blank" : "_self"` treats
the absent flag as falsy. -/
theorem link_default_counterexample :
    (onPointerUp
        { isDragging := false, dragStartX := 0, dragStartY := 0, lastPointerX := 0,
          pointerVelocity := 0, rotationSpeed := 0, spinRotationY := 0,
          hovered := none,
          immersive := some ⟨0, { image := "img", link := some "https://example.com" }⟩,
          enableHover := true, dragSensitivity := 0.015, flickSensitivity := 0.01,
          friction := 0.9, idleRotationSpeed := 0 }
        { isPrimary := true, clientX := 0, clientY := 0 } true).2 =
      [("https://example.com", NavTarget.self)] ∧
    NavTarget.self ≠ NavTarget.blank := by
  rw [onPointerUp_click_focused _ _ ⟨0, { image := "img", link := some "https://example.com" }⟩
    true rfl rfl (by norm_num [Real.sqrt_zero])]
  exact ⟨by decide, by decide⟩

/-- C2 (amended): activating a focused card requests navigation iff its link
is present, non-empty and not `"#"`; when requested it goes to a new tab iff
`openInNewTab` is `true`, and to the same tab when `openInNewTab` is `false`
OR unspecified; a real URL requests navigation exactly once (a one-element
request list), same-tab for `openInNewTab := false`. -/
theorem link_activation_gating (s : WheelState) (e : PEvent) (c : CardRef)
    (hp : e.isPrimary = true) (himm : s.immersive = some c)
    (hdist : Real.sqrt ((e.clientX - s.dragStartX) ^ 2 + (e.clientY - s.dragStartY) ^ 2) < 10) :
    ((onPointerUp s e true).2 ≠ [] ↔
      ∃ l, c.item.link = some l ∧ l ≠ "" ∧ l ≠ "#") ∧
    (∀ l, c.item.link = some l → l ≠ "" → l ≠ "#" →
      (onPointerUp s e true).2 =
        [(l, if c.item.openInNewTab = some true then NavTarget.blank else NavTarget.self)]) ∧
    (∀ l, c.item.link = some l → l ≠ "" → l ≠ "#" → c.item.openInNewTab = some false →
      (onPointerUp s e true).2 = [(l, NavTarget.self)]) ∧
    (∀ l, c.item.link = some l → l ≠ "" → l ≠ "#" → c.item.openInNewTab = none →
      (onPointerUp s e true).2 = [(l, NavTarget.self)]) := by
  rw [onPointerUp_click_focused s e c true hp himm hdist]
  simp only [if_true]
  have hsome : ∀ l, c.item.link = some l →
      navEffects c.item =
        (if l = "" then []
          else if l = "#" then []
          else [(l, if c.item.openInNewTab = some true then NavTarget.blank
            else NavTarget.self)]) := by
    intro l hl
    unfold navEffects
    rw [hl]
  have hform : ∀ l, c.item.link = some l → l ≠ "" → l ≠ "#" →
      navEffects c.item =
        [(l, if c.item.openInNewTab = some true then NavTarget.blank else NavTarget.self)] := by
    intro l hl h1 h2
    rw [hsome l hl, if_neg h1, if_neg h2]
  refine ⟨?_, hform, ?_, ?_⟩
  · constructor
    · intro hne
      rcases hl : c.item.link with _ | l
      · exfalso; apply hne; unfold navEffects; rw [hl]
      · by_cases h1 : l = ""
        · exfalso; apply hne; rw [hsome l hl, if_pos h1]
        · by_cases h2 : l = "#"
          · exfalso; apply hne; rw [hsome l hl, if_neg h1, if_pos h2]
          · exact ⟨l, rfl, h1, h2⟩
    · rintro ⟨l, hl, h1, h2⟩
      rw [hform l hl h1 h2]
      simp
  · intro l hl h1 h2 hflag
    rw [hform l hl h1 h2, hflag]
    simp
  · intro l hl h1 h2 hflag
    rw [hform l hl h1 h2, hflag]
    simp

/-- The focused card used by the C2 witness: a real URL with
`openInNewTab := false`. -/
def sameTabCard : CardRef :=
  { idx := 1
    item :=
      { image := "img"
        link := some "https://a.example/p"
        openInNewTab := some false } }

/-- The focused controller state used by the C2 witness. -/
def sameTabState : WheelState :=
  { isDragging := false
    dragStartX := 0
    dragStartY := 0
    lastPointerX := 0
    pointerVelocity := 0
    rotationSpeed := 0
    spinRotationY := 0
    hovered := none
    immersive := some sameTabCard
    enableHover := true
    dragSensitivity := 0.015
    flickSensitivity := 0.01
    friction := 0.9
    idleRotationSpeed := 0 }

/-- Witness for C2 (amended): focused card with a real URL and
`openInNewTab := false`, clicked dead-center: exactly one same-tab request. -/
theorem link_activation_gating_witness :
    (PEvent.isPrimary { isPrimary := true, clientX := 0, clientY := 0 } = true) ∧
    sameTabState.immersive = some sameTabCard ∧
    (onPointerUp sameTabState { isPrimary := true, clientX := 0, clientY := 0 } true).2 =
      [("https://a.example/p", NavTarget.self)] :=
  ⟨rfl, rfl,
    (link_activation_gating sameTabState { isPrimary := true, clientX := 0, clientY := 0 }
        sameTabCard rfl rfl (by norm_num [sameTabState, Real.sqrt_zero])).2.2.1
      "https://a.example/p" rfl (by decide) (by decide) rfl⟩

/-! ## C9: flick release converts velocity into coasting speed -/

/-- C9: releasing a drag past the 10 px click threshold with tracked pointer
velocity 5 px/frame and flick multiplier 0.01 (the configured
`flickSensitivity` of 1 divided by 100 at `init`) sets the coasting speed to
exactly `5 · 0.01 = 0.05` rad/frame; on every subsequent frame the physics
block multiplies a super-epsilon coasting speed by the friction factor. -/
theorem flick_release_speed (s : WheelState) (e : PEvent)
    (hp : e.isPrimary = true) (hdrag : s.isDragging = true)
    (hvel : s.pointerVelocity = 5) (hflick : s.flickSensitivity = 0.01)
    (hdist : ¬ Real.sqrt ((e.clientX - s.dragStartX) ^ 2 + (e.clientY - s.dragStartY) ^ 2) < 10) :
    (∀ hitFocused,
      (onPointerUp s e hitFocused).1.rotationSpeed = 0.05 ∧
      (onPointerUp s e hitFocused).1.isDragging = false) ∧
    (∀ props gen,
      (initController props gen).flickSensitivity = props.interaction.flickSensitivity / 100) ∧
    (∀ t : WheelState, ∀ d : ℝ, t.isDragging = false → t.immersive = none →
      0.0001 < |t.rotationSpeed| →
      (animateRotation t d).rotationSpeed = t.rotationSpeed * t.friction) := by
  refine ⟨?_, fun props gen => rfl, ?_⟩
  · intro hitFocused
    unfold onPointerUp
    rw [hp]
    simp only [Bool.true_eq_false, if_false]
    rw [if_neg hdist, if_pos hdrag, hvel, hflick]
    norm_num
  · intro t d ht hi hv
    unfold animateRotation
    rw [if_pos ⟨ht, hi⟩, if_pos hv]

/-- The mid-drag controller state of the C9 witness: a drag from `(0,0)`
with last tracked velocity 5 px/frame and flick multiplier 0.01. -/
def flickState : WheelState :=
  { isDragging := true
    dragStartX := 0
    dragStartY := 0
    lastPointerX := 100
    pointerVelocity := 5
    rotationSpeed := 0
    spinRotationY := 0
    hovered := none
    immersive := none
    enableHover := true
    dragSensitivity := 0.015
    flickSensitivity := 0.01
    friction := 0.9
    idleRotationSpeed := 0 }

/-- Witness for C9: release at `(100, 0)` after a `+100` px drag from the
origin: the 100 px distance exceeds the threshold and the coasting speed
becomes exactly 0.05. -/
theorem flick_release_speed_witness :
    (PEvent.isPrimary { isPrimary := true, clientX := 100, clientY := 0 } = true) ∧
    flickState.isDragging = true ∧
    flickState.pointerVelocity = 5 ∧
    flickState.flickSensitivity = 0.01 ∧
    ((onPointerUp flickState { isPrimary := true, clientX := 100, clientY := 0 } false).1.rotationSpeed
        = 0.05 ∧
      (onPointerUp flickState
          { isPrimary := true, clientX := 100, clientY := 0 } false).1.isDragging = false) :=
  ⟨rfl, rfl, rfl, rfl,
    (flick_release_speed flickState { isPrimary := true, clientX := 100, clientY := 0 }
        rfl rfl rfl rfl
        (by
          rw [show ((100 : ℝ) - flickState.dragStartX) ^ 2 +
              ((0 : ℝ) - flickState.dragStartY) ^ 2 = 100 ^ 2 from by
            norm_num [flickState]]
          rw [Real.sqrt_sq (by norm_num : (0 : ℝ) ≤ 100)]
          norm_num)).1 false⟩

/-! ## C10: focused state keeps the coasting speed at zero -/

/-- The focused-state invariant: whenever a card is focused, no drag is in
progress and the coasting rotational speed is exactly zero. -/
def ImmersiveInv (s : WheelState) : Prop :=
  s.immersive ≠ none → s.isDragging = false ∧ s.rotationSpeed = 0

/-- `updateHover` only touches the hovered card: focus, drag flag and
coasting speed are untouched. -/
theorem updateHover_fields (s : WheelState) (hit : Option CardRef) :
    (updateHover s hit).immersive = s.immersive ∧
    (updateHover s hit).isDragging = s.isDragging ∧
    (updateHover s hit).rotationSpeed = s.rotationSpeed := by
  unfold updateHover
  split
  · exact ⟨rfl, rfl, rfl⟩
  · rcases hit with _ | c
    · exact ⟨rfl, rfl, rfl⟩
    · simp only [applyHoverHit]
      by_cases hh : s.hovered = some c
      · rw [if_pos hh]
        exact ⟨rfl, rfl, rfl⟩
      · rw [if_neg hh]
        exact ⟨rfl, rfl, rfl⟩

/-- C10: entering the focused state zeroes the coasting speed; every handler
and the per-frame rotation physics preserve the focused-state invariant; and
while a card is focused, the wheel and pointer-move handlers leave the state
untouched, and neither the per-frame physics nor pointer-up ever writes a
nonzero coasting speed or moves the ring's rotation. -/
theorem focused_speed_invariant (s : WheelState) (h : ImmersiveInv s) :
    (∀ c, (enterImmersive s c).rotationSpeed = 0) ∧
    (∀ e, ImmersiveInv (onPointerDown s e)) ∧
    (∀ e hit, ImmersiveInv (onPointerMove s e hit)) ∧
    (∀ e hitFocused, ImmersiveInv (onPointerUp s e hitFocused).1) ∧
    ImmersiveInv (onPointerCancel s) ∧
    (∀ e, ImmersiveInv (onWheel s e)) ∧
    (∀ d, ImmersiveInv (animateRotation s d)) ∧
    (s.immersive ≠ none →
      (∀ e, onWheel s e = s) ∧
      (∀ e hit, onPointerMove s e hit = s) ∧
      (∀ d, (animateRotation s d).rotationSpeed = 0 ∧
        (animateRotation s d).spinRotationY = s.spinRotationY) ∧
      (∀ e hitFocused, (onPointerUp s e hitFocused).1.rotationSpeed = 0 ∧
        (onPointerUp s e hitFocused).1.spinRotationY = s.spinRotationY)) := by
  refine ⟨?_, ?_, ?_, ?_, ?_, ?_, ?_, ?_⟩
  · intro c
    unfold enterImmersive
    split
    · next hi => exact (h hi).2
    · rfl
  · intro e
    unfold onPointerDown
    split
    · exact h
    · split
      · intro hi
        exact h hi
      · next hni =>
        intro hi
        exact absurd (not_not.1 hni) hi
  · intro e hit
    unfold onPointerMove
    split
    · exact h
    · split
      · exact h
      · next hni =>
        have hnone : s.immersive = none := not_not.1 hni
        have hu : (updateHover s hit).immersive = s.immersive := (updateHover_fields s hit).1
        split
        · intro hi
          exact absurd (hu.trans hnone) hi
        · intro hi
          exact absurd (hu.trans hnone) hi
  · intro e hitFocused
    unfold onPointerUp
    split
    · exact h
    · split
      · rcases hsi : s.immersive with _ | c₀
        · simp only [hsi]
          rcases hsh : s.hovered with _ | ch
          · simp only [hsh]
            intro hi
            exact absurd rfl hi
          · simp only [hsh]
            unfold enterImmersive
            rw [if_neg (by simp [hsi])]
            intro _
            exact ⟨rfl, rfl⟩
        · simp only [hsi]
          unfold exitImmersive
          rw [if_neg (by simp [hsi])]
          intro hi
          exact absurd rfl hi
      · split
        · next hd =>
          intro hi
          rw [(h hi).1] at hd
          exact Bool.noConfusion hd
        · intro hi
          exact ⟨rfl, (h hi).2⟩
  · intro hi
    exact ⟨rfl, rfl⟩
  · intro e
    unfold onWheel
    split
    · exact h
    · next hni =>
      split
      · exact h
      · intro hi
        exact absurd (not_not.1 hni) hi
  · intro d
    unfold animateRotation
    split
    · next hg =>
      split
      · intro hi
        exact absurd hg.2 hi
      · intro hi
        exact absurd hg.2 hi
    · exact h
  · intro himm
    refine ⟨?_, ?_, ?_, ?_⟩
    · intro e
      unfold onWheel
      rw [if_pos himm]
    · intro e hit
      unfold onPointerMove
      by_cases hp : e.isPrimary = false
      · rw [if_pos hp]
      · rw [if_neg hp, if_pos himm]
    · intro d
      unfold animateRotation
      rw [if_neg (fun hg => himm hg.2)]
      exact ⟨(h himm).2, rfl⟩
    · intro e hitFocused
      unfold onPointerUp
      split
      · exact ⟨(h himm).2, rfl⟩
      · split
        · rcases hsi : s.immersive with _ | c₀
          · exact absurd hsi himm
          · simp only [hsi]
            unfold exitImmersive
            rw [if_neg (by simp [hsi])]
            exact ⟨(h himm).2, rfl⟩
        · split
          · next hd =>
            rw [(h himm).1] at hd
            exact Bool.noConfusion hd
          · exact ⟨(h himm).2, rfl⟩

/-- The focused state used by the C10 witness. -/
def focusedState : WheelState :=
  { isDragging := false
    dragStartX := 0
    dragStartY := 0
    lastPointerX := 0
    pointerVelocity := 0
    rotationSpeed := 0
    spinRotationY := 1.2
    hovered := none
    immersive := some ⟨2, { image := "img" }⟩
    enableHover := true
    dragSensitivity := 0.015
    flickSensitivity := 0.01
    friction := 0.9
    idleRotationSpeed := 0 }

/-- Witness for C10 at a concrete focused state. -/
theorem focused_speed_invariant_witness :
    ImmersiveInv focusedState ∧
    (∀ c, (enterImmersive focusedState c).rotationSpeed = 0) ∧
    (∀ d, (animateRotation focusedState d).rotationSpeed = 0 ∧
      (animateRotation focusedState d).spinRotationY = focusedState.spinRotationY) :=
  ⟨fun _ => ⟨rfl, rfl⟩,
    (focused_speed_invariant focusedState (fun _ => ⟨rfl, rfl⟩)).1,
    ((focused_speed_invariant focusedState (fun _ => ⟨rfl, rfl⟩)).2.2.2.2.2.2.2
      (by intro hcon; exact Option.noConfusion hcon)).2.2.1⟩

/-! ## C4: rebuild vs in-place update decision -/

/-- Every card built by `createCards` carries the generation that built it. -/
theorem createCards_gen (gen : ℕ) (props : WheelSceneProps) :
    ∀ card ∈ createCards gen props, card.id.1 = gen := by
  intro card hcard
  simp only [createCards, List.mem_map] at hcard
  obtain ⟨p, _, hp⟩ := hcard
  rw [← hp]

/-- C4: `update(newProps)` tears down and rebuilds (fresh card objects, a new
generation) exactly when a structural field changed — the item list, the ring
radius, the card dimensions, the border radius, the image-fit mode, the
per-card rotation offset, or the bending-constraint edge.  Changing
`wheelRadius` recreates every card object (same count when the item list is
unchanged); changing only `sceneTransform.rotationY` keeps the very same card
objects (object identity preserved) and merely rewrites the animatable
targets. -/
theorem update_rebuild_decision (c : Controller) (newProps : WheelSceneProps)
    (hlen : c.cards.length = c.props.items.length)
    (hgen : ∀ card ∈ c.cards, card.id.1 = c.gen) :
    ((updateController c newProps).gen ≠ c.gen ↔
      (c.props.items ≠ newProps.items ∨
        c.props.wheelRadius ≠ newProps.wheelRadius ∨
        c.props.cardWidth ≠ newProps.cardWidth ∨
        c.props.cardHeight ≠ newProps.cardHeight ∨
        c.props.borderRadius ≠ newProps.borderRadius ∨
        c.props.imageFit ≠ newProps.imageFit ∨
        c.props.cardTransform ≠ newProps.cardTransform ∨
        c.props.animation.bendingConstraint ≠ newProps.animation.bendingConstraint)) ∧
    (NeedsRebuild c.props newProps →
      updateController c newProps = initController newProps (c.gen + 1)) ∧
    (c.props.wheelRadius ≠ newProps.wheelRadius →
      (∀ card ∈ (updateController c newProps).cards, ∀ old ∈ c.cards, card.id ≠ old.id) ∧
      (c.props.items = newProps.items →
        (updateController c newProps).cards.length = c.cards.length)) ∧
    (∀ r : ℝ,
      newProps =
        { c.props with sceneTransform := { c.props.sceneTransform with rotationY := r } } →
      (updateController c newProps).cards = c.cards ∧
      (updateController c newProps).gen = c.gen ∧
      (updateController c newProps).props = newProps ∧
      (updateController c newProps).targetRotation =
        (degToRad c.props.sceneTransform.rotationX, degToRad r,
          degToRad c.props.sceneTransform.rotationZ)) := by
  refine ⟨?_, ?_, ?_, ?_⟩
  · by_cases hnr : NeedsRebuild c.props newProps
    · unfold updateController
      rw [if_pos hnr]
      exact iff_of_true (Nat.succ_ne_self c.gen) hnr
    · unfold updateController
      rw [if_neg hnr]
      exact iff_of_false (fun hne => hne rfl) hnr
  · intro hnr
    unfold updateController
    rw [if_pos hnr]
  · intro hr
    have hnr : NeedsRebuild c.props newProps := Or.inr (Or.inl hr)
    unfold updateController
    rw [if_pos hnr]
    constructor
    · intro card hcard old hold heq
      have h1 : card.id.1 = c.gen + 1 := createCards_gen (c.gen + 1) newProps card hcard
      have h2 : old.id.1 = c.gen := hgen old hold
      rw [heq, h2] at h1
      exact Nat.succ_ne_self c.gen h1.symm
    · intro hitems
      show (createCards (c.gen + 1) newProps).length = c.cards.length
      rw [(createCards_empty_safe (c.gen + 1) newProps).1, ← hitems, hlen]
  · intro r hnew
    have hnr : ¬ NeedsRebuild c.props newProps := by
      subst hnew
      unfold NeedsRebuild
      push_neg
      exact ⟨rfl, rfl, rfl, rfl, rfl, rfl, rfl, rfl⟩
    unfold updateController
    rw [if_neg hnr]
    subst hnew
    exact ⟨rfl, rfl, rfl, rfl⟩

/-- The initial configuration of the C4 witness (empty item list). -/
def cfgBase : WheelSceneProps :=
  { items := []
    wheelRadius := 3.5
    cardWidth := 1.2
    cardHeight := 1.8
    borderRadius := 0.1
    backgroundColor := "transparent"
    imageFit := ImageFit.cover
    sceneTransform := ⟨1, 0, 0, 0, 10, 0, 0⟩
    cardTransform := ⟨0, 0, 0⟩
    interaction := ⟨true, 1.5, 1, 0.1, true, 1.1, 0.2, 0.3⟩
    animation := ⟨false, RotateDirection.right, 20, 0.1, 0.2, BendConstraint.center⟩ }

/-- The C4 witness's incoming configuration: only `wheelRadius` changed. -/
def cfgWider : WheelSceneProps := { cfgBase with wheelRadius := 4 }

/-- Witness for C4: a freshly built controller satisfies the well-formedness
hypotheses, and the rebuild decision applies to the radius-only change. -/
theorem update_rebuild_decision_witness :
    (initController cfgBase 0).cards.length = (initController cfgBase 0).props.items.length ∧
    (∀ card ∈ (initController cfgBase 0).cards, card.id.1 = (initController cfgBase 0).gen) ∧
    (NeedsRebuild (initController cfgBase 0).props cfgWider →
      updateController (initController cfgBase 0) cfgWider =
        initController cfgWider ((initController cfgBase 0).gen + 1)) :=
  ⟨rfl, by simp [initController, createCards, cfgBase],
    (update_rebuild_decision (initController cfgBase 0) cfgWider rfl
      (by simp [initController, createCards, cfgBase])).2.1⟩

end RingFan
